import Mathlib

/-!
Shallow embedding of the scheduling/availability engine of the
reservation_demo backend (backend/app/usecases/reservation_usecase.py and
backend/app/repositories/reservation_repository.py), together with proofs
about its behaviour.

Modelling conventions:
* A `datetime` is the number of minutes since 0001-01-01T00:00 (a `Nat`;
  Python datetimes cannot precede year 1).  `t.date()` is `t / 1440`.
* A `date` is its proleptic-Gregorian ordinal minus one (a `Nat`), so
  day 0 = 0001-01-01, which is a Monday; `date.weekday()` is `d % 7`
  (0 = Monday .. 6 = Sunday), `date + timedelta(days=1)` is `d + 1`, and
  `datetime.combine(date, time(hour, minute))` is `d*1440 + hour*60 + minute`.
* `datetime.now(tz)` is an explicit parameter `now` (aware datetimes compare
  as instants, so the timezone only fixes the display of the same instant).
* The SQLAlchemy session is a `Store` value passed and returned explicitly;
  raising one of the usecase exceptions is returning `Except.error`.
  An operation that raises returns no store, i.e. leaves the store unchanged.
* Columns of the ORM entities that no modelled operation reads or writes
  (created_at, updated_at, resource name/type/description/profile/photos/tags)
  are omitted.
-/

namespace ReservationDemo

/-- Status enum of a reservation (entities/reservation.py, ReservationStatus). -/
inductive ReservationStatus where
  | pending
  | confirmed
  | cancelled
  | completed
deriving DecidableEq, Repr, Inhabited

/-- Row of the reservations table (entities/reservation.py, Reservation). -/
structure Reservation where
  id : Nat
  resource_id : Nat
  customer_name : String
  customer_email : String
  customer_phone : Option String
  start_time : Nat
  end_time : Nat
  status : ReservationStatus
deriving DecidableEq, Repr, Inhabited

/-- Row of the resources table (entities/resource.py, Resource).
The JSON `availability_schedule` column is either a dict from string keys to
hour lists (modelled as an association list with distinct keys, Python dicts
having unique keys) or some non-dict JSON value (modelled as `none`). -/
structure Resource where
  id : Nat
  availability_schedule : Option (List (String × List Nat))
deriving DecidableEq, Repr

/-- The database state: both tables plus the id the next INSERT will assign. -/
structure Store where
  resources : List Resource
  reservations : List Reservation
  next_id : Nat
deriving DecidableEq, Repr, Inhabited

/-- BaseRepository.get specialised to resources: first row with the given id. -/
def ResourceRepository.get (s : Store) (id : Nat) : Option Resource :=
  (s.resources.filter (fun r => decide (r.id = id))).head?

/-- BaseRepository.get specialised to reservations. -/
def ReservationRepository.get (s : Store) (id : Nat) : Option Reservation :=
  (s.reservations.filter (fun r => decide (r.id = id))).head?

/-- ReservationRepository.get_by_resource_id: filter by resource, then
offset(skip).limit(limit). -/
def ReservationRepository.get_by_resource_id
    (s : Store) (resource_id : Nat) (skip : Nat) (limit : Nat) : List Reservation :=
  (((s.reservations.filter (fun r => decide (r.resource_id = resource_id))).drop skip).take limit)

/-- Time filter of ReservationRepository.get_conflicting_reservations
(lines 101-106): `Reservation.start_time < end_time AND Reservation.end_time
> start_time`. -/
def conflictTimeCond (start_time end_time : Nat) (r : Reservation) : Bool :=
  decide (r.start_time < end_time) && decide (r.end_time > start_time)

/-- ReservationRepository.get_conflicting_reservations: rows of the resource
whose status is not cancelled and whose interval satisfies the time filter;
when exclude_id is given a further `id != exclude_id` filter is applied. -/
def ReservationRepository.get_conflicting_reservations
    (s : Store) (resource_id : Nat) (start_time end_time : Nat)
    (exclude_id : Option Nat) : List Reservation :=
  let query := s.reservations.filter (fun r =>
    decide (r.resource_id = resource_id) &&
    decide (r.status ≠ ReservationStatus.cancelled) &&
    conflictTimeCond start_time end_time r)
  match exclude_id with
  | none => query
  | some x => query.filter (fun r => decide (r.id ≠ x))

/-- Typed errors of the usecase layer (usecases/exceptions.py; only the four
kinds the reservation usecase raises). -/
inductive UsecaseError where
  | resourceNotFound
  | reservationNotFound
  | invalidTime
  | conflict
deriving DecidableEq, Repr

/-- ReservationUsecase._validate_reservation_time (lines 37-58):
InvalidReservationTimeError when start >= end, else when start is before
`datetime.now(start_time.tzinfo)`. -/
def validate_reservation_time (now : Nat) (start_time end_time : Nat) :
    Except UsecaseError Unit :=
  if start_time ≥ end_time then .error .invalidTime
  else if start_time < now then .error .invalidTime
  else .ok ()

/-- ReservationUsecase._check_reservation_conflict (lines 60-88):
ReservationConflictError when the conflicting list is non-empty. -/
def check_reservation_conflict (s : Store) (resource_id : Nat)
    (start_time end_time : Nat) (exclude_id : Option Nat) :
    Except UsecaseError Unit :=
  let conflicting := ReservationRepository.get_conflicting_reservations
    s resource_id start_time end_time exclude_id
  if conflicting.isEmpty then .ok () else .error .conflict

/-- Payload of ReservationCreate (schemas/reservation_schema.py). -/
structure ReservationCreate where
  resource_id : Nat
  customer_name : String
  customer_email : String
  customer_phone : Option String
  start_time : Nat
  end_time : Nat
  status : ReservationStatus
deriving DecidableEq, Repr

/-- Payload of ReservationUpdate: `some v` is a field present in
`model_dump(exclude_unset=True)` with value `v`, `none` a field left unset.
(Fields explicitly set to null are skipped again by BaseRepository.update's
`if value is not None` and are not modelled separately.) -/
structure ReservationUpdate where
  resource_id : Option Nat := none
  customer_name : Option String := none
  customer_email : Option String := none
  customer_phone : Option String := none
  start_time : Option Nat := none
  end_time : Option Nat := none
  status : Option ReservationStatus := none
deriving DecidableEq, Repr

/-- The merged row BaseRepository.update produces: each field present in the
update dict overwrites the stored one. -/
def mergeUpdate (existing : Reservation) (d : ReservationUpdate) : Reservation :=
  { existing with
    resource_id := d.resource_id.getD existing.resource_id
    customer_name := d.customer_name.getD existing.customer_name
    customer_email := d.customer_email.getD existing.customer_email
    customer_phone := match d.customer_phone with
      | some p => some p
      | none => existing.customer_phone
    start_time := d.start_time.getD existing.start_time
    end_time := d.end_time.getD existing.end_time
    status := d.status.getD existing.status }

/-- BaseRepository.update specialised to reservations: fetch the row by id
(primary key, hence unique in a well-formed store), apply the merged fields
in place, return the updated row; `none` when the id does not exist. -/
def ReservationRepository.update (s : Store) (id : Nat) (d : ReservationUpdate) :
    Option (Store × Reservation) :=
  match ReservationRepository.get s id with
  | none => none
  | some obj =>
    let merged := mergeUpdate obj d
    some ({ s with reservations :=
      s.reservations.map (fun r => if r.id = id then merged else r) }, merged)

/-- BaseRepository.delete specialised to reservations: fetch by id, remove
that row; `false` (here `none`) when absent. -/
def ReservationRepository.delete (s : Store) (id : Nat) : Option Store :=
  match ReservationRepository.get s id with
  | none => none
  | some _ =>
    some { s with reservations := s.reservations.eraseP (fun r => decide (r.id = id)) }

/-- ReservationUsecase.create_reservation (lines 90-137): resource existence,
then time validation, then conflict check, then persist.  The persisted row
gets the store's next id (the autoincrement primary key). -/
def create_reservation (now : Nat) (s : Store) (d : ReservationCreate) :
    Except UsecaseError (Store × Reservation) :=
  match ResourceRepository.get s d.resource_id with
  | none => .error .resourceNotFound
  | some _ =>
    match validate_reservation_time now d.start_time d.end_time with
    | .error e => .error e
    | .ok _ =>
      match check_reservation_conflict s d.resource_id d.start_time d.end_time none with
      | .error e => .error e
      | .ok _ =>
        let r : Reservation :=
          { id := s.next_id
            resource_id := d.resource_id
            customer_name := d.customer_name
            customer_email := d.customer_email
            customer_phone := d.customer_phone
            start_time := d.start_time
            end_time := d.end_time
            status := d.status }
        .ok ({ s with reservations := s.reservations ++ [r], next_id := s.next_id + 1 }, r)

/-- Resource-existence pre-check of update_reservation (lines 221-227): only
when resource_id is among the changed fields. -/
def check_update_resource (s : Store) (d : ReservationUpdate) :
    Except UsecaseError Unit :=
  match d.resource_id with
  | some nrid =>
    match ResourceRepository.get s nrid with
    | none => .error .resourceNotFound
    | some _ => .ok ()
  | none => .ok ()

/-- Time pre-check of update_reservation (lines 229-241): the effective
start/end/resource merge the changed fields over the existing row; only when
start_time or end_time changed are validation and the conflict check (with
the reservation itself excluded) run. -/
def check_update_times (now : Nat) (s : Store) (reservation_id : Nat)
    (d : ReservationUpdate) (existing : Reservation) : Except UsecaseError Unit :=
  if d.start_time.isSome || d.end_time.isSome then
    match validate_reservation_time now (d.start_time.getD existing.start_time)
        (d.end_time.getD existing.end_time) with
    | .error e => .error e
    | .ok _ =>
      check_reservation_conflict s (d.resource_id.getD existing.resource_id)
        (d.start_time.getD existing.start_time) (d.end_time.getD existing.end_time)
        (some reservation_id)
  else .ok ()

/-- ReservationUsecase.update_reservation (lines 193-247): lookup, resource
existence when resource_id changes, then — only when start_time or end_time
is among the changed fields — time validation and conflict check with the
reservation itself excluded, then persist the merged fields. -/
def update_reservation (now : Nat) (s : Store) (reservation_id : Nat)
    (d : ReservationUpdate) : Except UsecaseError (Store × Reservation) :=
  match ReservationRepository.get s reservation_id with
  | none => .error .reservationNotFound
  | some existing =>
    match check_update_resource s d with
    | .error e => .error e
    | .ok _ =>
      match check_update_times now s reservation_id d existing with
      | .error e => .error e
      | .ok _ =>
        match ReservationRepository.update s reservation_id d with
        | some (s2, updated) => .ok (s2, updated)
        | none => .error .reservationNotFound

/-- ReservationUsecase.delete_reservation (lines 249-263). -/
def delete_reservation (s : Store) (reservation_id : Nat) :
    Except UsecaseError Store :=
  match ReservationRepository.delete s reservation_id with
  | none => .error .reservationNotFound
  | some s2 => .ok s2

/-- The `date()` of a datetime: its calendar day. -/
def dateOf (t : Nat) : Nat := t / 1440

/-- datetime.combine(target_date, time(hour, minute)). -/
def combineDT (d hour minute : Nat) : Nat := d * 1440 + hour * 60 + minute

/-- target_date.strftime("%A").lower() as a function of target_date.weekday()
(the catch-all arm is unreachable for an actual weekday index). -/
def weekdayName : Nat → String
  | 0 => "monday"
  | 1 => "tuesday"
  | 2 => "wednesday"
  | 3 => "thursday"
  | 4 => "friday"
  | 5 => "saturday"
  | _ => "sunday"

/-- The weekday-resolution block of get_availability_for_date (lines 349-375):
look up the lowercase weekday name, else the stringified weekday index, else
"weekdays"/"saturday"/"sunday" by day class; when nothing matched, the value
matched is empty, or the schedule is not a dict, fall back to
list(range(business_start, business_end)). -/
def resolveWorkingHours (availability_schedule : Option (List (String × List Nat)))
    (weekday_index : Nat) (business_start business_end : Nat) : List Nat :=
  match availability_schedule with
  | some sched =>
    let weekday_name := weekdayName weekday_index
    let working_hours : List Nat :=
      if (sched.lookup weekday_name).isSome then
        (sched.lookup weekday_name).getD []
      else if (sched.lookup (toString weekday_index)).isSome then
        (sched.lookup (toString weekday_index)).getD []
      else if weekday_index < 5 && (sched.lookup "weekdays").isSome then
        (sched.lookup "weekdays").getD []
      else if weekday_index == 5 && (sched.lookup "saturday").isSome then
        (sched.lookup "saturday").getD []
      else if weekday_index == 6 && (sched.lookup "sunday").isSome then
        (sched.lookup "sunday").getD []
      else []
    if working_hours.isEmpty then
      List.range' business_start (business_end - business_start)
    else working_hours
  | none => List.range' business_start (business_end - business_start)

/-- Business-hours clamp of the slot generator (lines 398-403): the slot is
skipped when `slot_time.hour < business_start or slot_time.hour >=
business_end or (slot_time.hour == business_end and slot_time.minute > 0)`.
Since the slot is built from `hour` and `minute` (valid datetime fields),
`slot_time.hour = hour` and `slot_time.minute = minute`. -/
def dropSlot (business_start business_end hour minute : Nat) : Bool :=
  decide (hour < business_start) || decide (hour ≥ business_end) ||
    (decide (hour = business_end) && decide (minute > 0))

/-- Overlap test of the slot-availability loop (lines 411-414):
`slot_time < reservation.end_time and slot_end > reservation.start_time`. -/
def slotOverlapCond (slot_time slot_end : Nat) (r : Reservation) : Bool :=
  decide (slot_time < r.end_time) && decide (slot_end > r.start_time)

/-- Emitted 30-minute slot (one element of the time_slots list). -/
structure TimeSlot where
  time : Nat
  hour : Nat
  minute : Nat
  available : Bool
deriving DecidableEq, Repr

/-- Result dict of get_availability_for_date. -/
structure AvailabilityDay where
  date : Nat
  resource_id : Nat
  time_slots : List TimeSlot
deriving DecidableEq, Repr, Inhabited

/-- Inner minute loop of the slot generator for one working hour: the two
candidate slots at :00 and :30, clamped to business hours and marked
available unless they overlap one of the day's non-cancelled reservations. -/
def slotsForHour (business_start business_end : Nat) (target_date : Nat)
    (day_reservations : List Reservation) (hour : Nat) : List TimeSlot :=
  ([0, 30] : List Nat).filterMap (fun minute =>
    if dropSlot business_start business_end hour minute then none
    else
      let slot_time := combineDT target_date hour minute
      let slot_end := slot_time + 30
      let is_available := !(day_reservations.any (slotOverlapCond slot_time slot_end))
      some { time := slot_time, hour := hour, minute := minute,
             available := is_available })

/-- ReservationUsecase.get_availability_for_date (lines 310-431): resource
existence, weekday resolution, one repository fetch with skip=0 limit=1000
filtered down to the target day's non-cancelled reservations, then the slot
loop over the resolved working hours.  business_start/business_end are
settings.business_hours_start/settings.business_hours_end (defaults 9, 21). -/
def get_availability_for_date (business_start business_end : Nat) (s : Store)
    (resource_id : Nat) (target_date : Nat) : Except UsecaseError AvailabilityDay :=
  match ResourceRepository.get s resource_id with
  | none => .error .resourceNotFound
  | some resource =>
    let weekday_index := target_date % 7
    let working_hours := resolveWorkingHours resource.availability_schedule
      weekday_index business_start business_end
    let reservations := ReservationRepository.get_by_resource_id s resource_id 0 1000
    let day_reservations := reservations.filter (fun r =>
      decide (dateOf r.start_time = target_date) &&
      decide (r.status ≠ ReservationStatus.cancelled))
    let time_slots := (working_hours.map
      (slotsForHour business_start business_end target_date day_reservations)).flatten
    .ok { date := target_date, resource_id := resource_id, time_slots := time_slots }

/-- Result dict of get_availability_range. -/
structure AvailabilityRange where
  resource_id : Nat
  start_date : Nat
  end_date : Nat
  availability : List AvailabilityDay
deriving DecidableEq, Repr, Inhabited

/-- Body of the `while current_date <= end_date` loop of
get_availability_range, recursing on the number of remaining iterations
(`end_date + 1 - current_date`, which the loop decrements by advancing
current_date one day per pass): per-day results in ascending date order; a
raising day aborts the whole call. -/
def availGo (business_start business_end : Nat) (s : Store) (resource_id : Nat) :
    (fuel : Nat) → (current_date : Nat) → Except UsecaseError (List AvailabilityDay)
  | 0, _ => .ok []
  | fuel + 1, current_date =>
    match get_availability_for_date business_start business_end s resource_id current_date with
    | .error e => .error e
    | .ok day =>
      match availGo business_start business_end s resource_id fuel (current_date + 1) with
      | .error e => .error e
      | .ok rest => .ok (day :: rest)

/-- The `while current_date <= end_date` loop of get_availability_range: it
runs exactly `end_date + 1 - current_date` times (zero times when
current_date > end_date). -/
def availLoop (business_start business_end : Nat) (s : Store) (resource_id : Nat)
    (current_date end_date : Nat) : Except UsecaseError (List AvailabilityDay) :=
  availGo business_start business_end s resource_id
    (end_date + 1 - current_date) current_date

/-- ReservationUsecase.get_availability_range (lines 433-459). -/
def get_availability_range (business_start business_end : Nat) (s : Store)
    (resource_id : Nat) (start_date end_date : Nat) :
    Except UsecaseError AvailabilityRange :=
  match availLoop business_start business_end s resource_id start_date end_date with
  | .error e => .error e
  | .ok results =>
    .ok { resource_id := resource_id, start_date := start_date,
          end_date := end_date, availability := results }

/-- The time_slots of a successful availability result (empty on error);
used to state membership facts without destructuring the Except. -/
def slotsOf : Except UsecaseError AvailabilityDay → List TimeSlot
  | .ok day => day.time_slots
  | .error _ => []

/-- Two reservations overlap in time (the half-open interval intersection
test both code sites use). -/
def reservationsOverlap (r1 r2 : Reservation) : Prop :=
  r1.start_time < r2.end_time ∧ r1.end_time > r2.start_time

instance (r1 r2 : Reservation) : Decidable (reservationsOverlap r1 r2) :=
  inferInstanceAs (Decidable (_ ∧ _))

/-- The write-time invariant of the data model: for each resource, the active
(non-cancelled) reservations are pairwise non-overlapping. -/
def activeOverlapFree (l : List Reservation) : Prop :=
  l.Pairwise (fun r1 r2 =>
    r1.resource_id = r2.resource_id → r1.status ≠ ReservationStatus.cancelled →
      r2.status ≠ ReservationStatus.cancelled → ¬ reservationsOverlap r1 r2)

instance (l : List Reservation) : Decidable (activeOverlapFree l) :=
  inferInstanceAs (Decidable (List.Pairwise _ _))

/-- Overlap predicate as the spec states it (§4.1):
`overlaps(startA, endA, startB, endB) = startA < endB AND endA > startB`. -/
def overlaps (startA endA startB endB : Nat) : Bool :=
  decide (startA < endB) && decide (endA > startB)

/-- Rule chain of spec §4.4 written as an ordered list of alternatives with
the first match winning; stated separately from the source-translated
`resolveWorkingHours` so the two can be compared. -/
def specRuleHit (m : List (String × List Nat)) (wd : Nat) : Option (List Nat) :=
  match m.lookup (weekdayName wd) with
  | some v => some v
  | none =>
    match m.lookup (toString wd) with
    | some v => some v
    | none =>
      match (if wd < 5 then m.lookup "weekdays" else none) with
      | some v => some v
      | none =>
        match (if wd = 5 then m.lookup "saturday" else none) with
        | some v => some v
        | none => if wd = 6 then m.lookup "sunday" else none

/-- Spec §4.4 resolution: the first matching rule's hours, replaced by the
full business-hours range when no rule matched or the match is empty. -/
def specResolveWorkingHours (sched : Option (List (String × List Nat)))
    (wd business_start business_end : Nat) : List Nat :=
  match sched with
  | none => List.range' business_start (business_end - business_start)
  | some m =>
    match specRuleHit m wd with
    | none => List.range' business_start (business_end - business_start)
    | some l =>
      if l = [] then List.range' business_start (business_end - business_start) else l

end ReservationDemo

namespace ReservationDemo

/-- C4: the interval-overlap predicate used by both conflict detection
(repository time filter) and slot-availability marking is
`overlaps(startA, endA, startB, endB) = startA < endB AND endA > startB`;
it is symmetric, and intervals that merely touch at an endpoint
(`endA = startB`) never overlap. -/
theorem c4_overlap_predicate :
    (∀ (start_time end_time : Nat) (r : Reservation),
      conflictTimeCond start_time end_time r =
        overlaps r.start_time r.end_time start_time end_time) ∧
    (∀ (slot_time slot_end : Nat) (r : Reservation),
      slotOverlapCond slot_time slot_end r =
        overlaps slot_time slot_end r.start_time r.end_time) ∧
    (∀ sa ea sb eb : Nat, overlaps sa ea sb eb = overlaps sb eb sa ea) ∧
    (∀ sa ea eb : Nat, overlaps sa ea ea eb = false) := by
  refine ⟨fun st en r => rfl, fun t te r => rfl, fun sa ea sb eb => ?_, fun sa ea eb => ?_⟩
  · unfold overlaps
    rw [Bool.eq_iff_iff]
    simp only [Bool.and_eq_true, decide_eq_true_eq]
    constructor <;> exact fun h => ⟨h.2, h.1⟩
  · unfold overlaps
    simp

/-- C5: get_conflicting_reservations returns exactly the stored reservations
of the given resource that are not cancelled, whose half-open interval
overlaps the query interval, and whose id differs from exclude_id when that
is supplied. -/
theorem c5_find_conflicts_exact :
    ∀ (s : Store) (resource_id start_time end_time : Nat) (exclude_id : Option Nat)
      (r : Reservation),
      r ∈ ReservationRepository.get_conflicting_reservations
            s resource_id start_time end_time exclude_id ↔
        (r ∈ s.reservations ∧ r.resource_id = resource_id ∧
          r.status ≠ ReservationStatus.cancelled ∧
          r.start_time < end_time ∧ r.end_time > start_time ∧
          ∀ x, exclude_id = some x → r.id ≠ x) := by
  intro s rid st en excl r
  unfold ReservationRepository.get_conflicting_reservations conflictTimeCond
  cases excl with
  | none =>
    simp only [List.mem_filter, Bool.and_eq_true, decide_eq_true_eq]
    constructor
    · rintro ⟨hm, ⟨⟨h1, h2⟩, h3, h4⟩⟩
      exact ⟨hm, h1, h2, h3, h4, fun x hx => by cases hx⟩
    · rintro ⟨hm, h1, h2, h3, h4, _⟩
      exact ⟨hm, ⟨⟨h1, h2⟩, h3, h4⟩⟩
  | some x =>
    simp only [List.mem_filter, Bool.and_eq_true, decide_eq_true_eq]
    constructor
    · rintro ⟨⟨hm, ⟨⟨h1, h2⟩, h3, h4⟩⟩, h5⟩
      exact ⟨hm, h1, h2, h3, h4, fun y hy => by cases hy; exact h5⟩
    · rintro ⟨hm, h1, h2, h3, h4, h5⟩
      exact ⟨⟨hm, ⟨⟨h1, h2⟩, h3, h4⟩⟩, h5 x rfl⟩

/-- C3 counterexample: the claim says a start time equal to the comparison
instant is rejected; the code accepts it, since the check raises only when
`start_time < datetime.now(start_time.tzinfo)`. -/
theorem c3_counterexample_start_equals_now :
    validate_reservation_time 5 5 6 = .ok () := rfl

/-- C3 as amended: _validate_reservation_time fails with InvalidTime exactly
when start >= end or start is strictly before the comparison instant, and
succeeds exactly otherwise (a start equal to the comparison instant is
accepted); it returns no other error and, being a pure function of its
inputs, has no side effects. -/
theorem c3_amended_validate_iff :
    ∀ (now start_time end_time : Nat),
      (validate_reservation_time now start_time end_time = .error .invalidTime ↔
        (start_time ≥ end_time ∨ start_time < now)) ∧
      (validate_reservation_time now start_time end_time = .ok () ↔
        (start_time < end_time ∧ now ≤ start_time)) := by
  intro now st en
  unfold validate_reservation_time
  by_cases h1 : st ≥ en
  · simp [h1]
  · by_cases h2 : st < now
    · simp [h1, h2]
    · simp [h1, h2]
      omega

/-- C10: get_availability_range with start_date strictly after end_date
raises nothing and returns an empty availability list, whatever the store —
including stores where the resource does not exist, since the per-day loop
body (which performs the existence check) never runs. -/
theorem c10_reversed_range_is_empty :
    ∀ (business_start business_end : Nat) (s : Store) (resource_id start_date end_date : Nat),
      end_date < start_date →
      get_availability_range business_start business_end s resource_id start_date end_date =
        .ok { resource_id := resource_id, start_date := start_date,
              end_date := end_date, availability := [] } := by
  intro bS bE s rid sd ed hlt
  unfold get_availability_range availLoop
  rw [show ed + 1 - sd = 0 from by omega]
  rfl

/-- Witness for C10: a store with no resources at all still answers an
inverted range with an empty availability list instead of NotFound. -/
theorem c10_witness :
    get_availability_range 9 21 { resources := [], reservations := [], next_id := 1 } 1 5 4 =
      .ok { resource_id := 1, start_date := 5, end_date := 4, availability := [] } :=
  c10_reversed_range_is_empty 9 21
    { resources := [], reservations := [], next_id := 1 } 1 5 4 (by decide)

/-- C6: the create pipeline rejects a missing resource with NotFound before
anything else, and on an existing resource rejects start == end with
InvalidTime before the conflict check ever runs — so the outcome is
InvalidTime, never Conflict, whatever reservations the store holds; an
erroring call returns no store, leaving the store unchanged. -/
theorem c6_create_pipeline :
    ∀ (now : Nat) (s : Store) (d : ReservationCreate),
      (ResourceRepository.get s d.resource_id = none →
        create_reservation now s d = .error .resourceNotFound) ∧
      ((∃ res, ResourceRepository.get s d.resource_id = some res) →
        d.start_time = d.end_time →
        create_reservation now s d = .error .invalidTime) := by
  intro now s d
  constructor
  · intro h
    unfold create_reservation
    rw [h]
  · rintro ⟨res, h⟩ heq
    unfold create_reservation
    rw [h]
    have hv : validate_reservation_time now d.start_time d.end_time = .error .invalidTime := by
      unfold validate_reservation_time
      rw [if_pos (by omega)]
    rw [hv]

/-- Store for the C6 witness: one resource, one already-stored reservation
covering the requested instant (so a conflict would fire if checked). -/
def c6Store : Store :=
  { resources := [{ id := 1, availability_schedule := none }],
    reservations := [{ id := 1, resource_id := 1, customer_name := "a",
                       customer_email := "a@example.com", customer_phone := none,
                       start_time := 60, end_time := 180,
                       status := ReservationStatus.confirmed }],
    next_id := 2 }

/-- Degenerate creation payload for the C6 witness: start == end. -/
def c6Data : ReservationCreate :=
  { resource_id := 1, customer_name := "b", customer_email := "b@example.com",
    customer_phone := none, start_time := 100, end_time := 100,
    status := ReservationStatus.pending }

/-- Witness for C6: with the resource present and start == end the call
fails with InvalidTime even though a stored reservation overlaps the
instant; with no resources it fails with NotFound. -/
theorem c6_witness :
    create_reservation 0 c6Store c6Data = .error .invalidTime ∧
    create_reservation 0 { resources := [], reservations := [], next_id := 1 } c6Data =
      .error .resourceNotFound :=
  ⟨(c6_create_pipeline 0 c6Store c6Data).2 ⟨_, rfl⟩ rfl,
   (c6_create_pipeline 0 { resources := [], reservations := [], next_id := 1 } c6Data).1 rfl⟩

/-- Equivalent form of the business-hours clamp: because the middle disjunct
already uses `>=`, the slot is dropped exactly when its hour lies outside
`[business_start, business_end)`; the `hour == business_end and minute > 0`
disjunct is subsumed. -/
theorem dropSlot_eq_clamp (bS bE h m : Nat) :
    dropSlot bS bE h m = (decide (h < bS) || decide (bE ≤ h)) := by
  unfold dropSlot
  rw [Bool.eq_iff_iff]
  simp only [Bool.or_eq_true, Bool.and_eq_true, decide_eq_true_eq]
  omega

/-- Store for the C1 counterexample: the Monday working hours contain the
closing hour 21 itself. -/
def c1Store : Store :=
  { resources := [{ id := 1, availability_schedule := some [("monday", [21])] }],
    reservations := [], next_id := 1 }

/-- C1 counterexample: at hour = businessEnd = 21, minute = 0 the generator
drops the slot (the claimed drop condition is false there), and for a
resource whose resolved Monday hours are exactly [21] the emitted slot
sequence is empty — the slot starting at businessEnd:00 is not included. -/
theorem c1_counterexample_closing_slot :
    dropSlot 9 21 21 0 = true ∧
    ¬ (21 < 9 ∨ 21 > 21 ∨ (21 = 21 ∧ (0 : Nat) > 0)) ∧
    get_availability_for_date 9 21 c1Store 1 0 =
      .ok { date := 0, resource_id := 1, time_slots := [] } :=
  ⟨rfl, by decide, rfl⟩

/-- C1 as amended: the clamp drops a candidate slot iff its hour is below
businessStart or at/above businessEnd (the spec's third disjunct is
subsumed by the `>=`); consequently every emitted slot starts strictly
before businessEnd — the slot at businessEnd:00 is never emitted. -/
theorem c1_amended_clamp :
    (∀ business_start business_end h m : Nat,
      dropSlot business_start business_end h m =
        (decide (h < business_start) || decide (business_end ≤ h))) ∧
    (∀ (business_start business_end : Nat) (s : Store) (resource_id target_date : Nat)
      (day : AvailabilityDay),
      get_availability_for_date business_start business_end s resource_id target_date =
        .ok day →
      ∀ slot ∈ day.time_slots, business_start ≤ slot.hour ∧ slot.hour < business_end) := by
  refine ⟨dropSlot_eq_clamp, ?_⟩
  intro bS bE s rid d day h slot hmem
  unfold get_availability_for_date at h
  cases hres : ResourceRepository.get s rid with
  | none => rw [hres] at h; cases h
  | some resource =>
    rw [hres] at h
    cases h
    simp only [List.mem_flatten, List.mem_map] at hmem
    obtain ⟨slots, ⟨hour, _hhour, rfl⟩, hslot⟩ := hmem
    unfold slotsForHour at hslot
    simp only [List.mem_filterMap] at hslot
    obtain ⟨minute, _hm, hs⟩ := hslot
    by_cases hdrop : dropSlot bS bE hour minute = true
    · rw [if_pos hdrop] at hs
      cases hs
    · rw [if_neg hdrop] at hs
      cases hs
      rw [dropSlot_eq_clamp] at hdrop
      simp only [Bool.or_eq_true, decide_eq_true_eq] at hdrop
      dsimp only
      constructor <;> omega

/-- Store for the C1 amended witness: Monday hours [9]. -/
def c1wStore : Store :=
  { resources := [{ id := 1, availability_schedule := some [("monday", [9])] }],
    reservations := [], next_id := 1 }

/-- Witness for C1 amended: the 9:00 slot emitted for c1wStore on a Monday
has its hour inside the business-hours clamp [9, 21). -/
theorem c1_amended_witness :
    9 ≤ (TimeSlot.mk 540 9 0 true).hour ∧ (TimeSlot.mk 540 9 0 true).hour < 21 :=
  c1_amended_clamp.2 9 21 c1wStore 1 0
    { date := 0, resource_id := 1,
      time_slots := [⟨540, 9, 0, true⟩, ⟨570, 9, 30, true⟩] }
    rfl ⟨540, 9, 0, true⟩ (by decide)

/-- The source's weekday-resolution block computes exactly the spec's ordered
first-match-wins rule chain. -/
theorem resolve_eq_spec (sched : Option (List (String × List Nat)))
    (wd bS bE : Nat) :
    resolveWorkingHours sched wd bS bE = specResolveWorkingHours sched wd bS bE := by
  cases sched with
  | none => rfl
  | some m =>
    unfold resolveWorkingHours specResolveWorkingHours specRuleHit
    cases h1 : m.lookup (weekdayName wd) with
    | some v => simp [h1, List.isEmpty_iff]
    | none =>
      cases h2 : m.lookup (toString wd) with
      | some v => simp [h1, h2, List.isEmpty_iff]
      | none =>
        by_cases hw5 : wd < 5
        · have hne5 : ¬ wd = 5 := by omega
          have hne6 : ¬ wd = 6 := by omega
          cases h3 : m.lookup "weekdays" with
          | some v => simp [h1, h2, h3, hw5, hne5, hne6, List.isEmpty_iff]
          | none => simp [h1, h2, h3, hw5, hne5, hne6, List.isEmpty_iff]
        · by_cases hw5e : wd = 5
          · subst hw5e
            cases h4 : m.lookup "saturday" with
            | some v => simp [h1, h2, h4, List.isEmpty_iff]
            | none => simp [h1, h2, h4, List.isEmpty_iff]
          · by_cases hw6e : wd = 6
            · subst hw6e
              cases h5 : m.lookup "sunday" with
              | some v => simp [h1, h2, h5, List.isEmpty_iff]
              | none => simp [h1, h2, h5, List.isEmpty_iff]
            · simp [h1, h2, hw5, hw5e, hw6e, List.isEmpty_iff]

/-- The full business-hours range is non-empty whenever
business_start < business_end. -/
theorem range_business_ne_nil (bS bE : Nat) (h : bS < bE) :
    List.range' bS (bE - bS) ≠ [] := by
  intro hnil
  have hlen : (List.range' bS (bE - bS)).length = 0 := by rw [hnil]; rfl
  rw [List.length_range'] at hlen
  omega

/-- The empty-match fallback always yields a non-empty list when the business
hours are a proper range. -/
theorem fallback_ne_nil (w : List Nat) (bS bE : Nat) (h : bS < bE) :
    (if w.isEmpty then List.range' bS (bE - bS) else w) ≠ [] := by
  by_cases hw : w.isEmpty
  · rw [if_pos hw]
    exact range_business_ne_nil bS bE h
  · rw [if_neg hw]
    intro hnil
    rw [hnil] at hw
    exact hw rfl

/-- C7: the weekday-resolution block equals the spec's ordered fallback chain
(exact weekday name, then numeric index string, then "weekdays"/"saturday"/
"sunday" by day class, first match winning, full business-hours range when
nothing matched or the match is empty); under businessStart < businessEnd
its result is never empty; and the spec's worked example holds: schedule
{"monday": [9,10]} with business hours 9-21 gives [9,10] on a Monday and the
full range 9..20 on a Tuesday. -/
theorem c7_resolve_working_hours :
    (∀ (sched : Option (List (String × List Nat))) (wd business_start business_end : Nat),
      resolveWorkingHours sched wd business_start business_end =
        specResolveWorkingHours sched wd business_start business_end) ∧
    (∀ (sched : Option (List (String × List Nat))) (wd business_start business_end : Nat),
      business_start < business_end →
      resolveWorkingHours sched wd business_start business_end ≠ []) ∧
    resolveWorkingHours (some [("monday", [9, 10])]) 0 9 21 = [9, 10] ∧
    resolveWorkingHours (some [("monday", [9, 10])]) 1 9 21 =
      [9, 10, 11, 12, 13, 14, 15, 16, 17, 18, 19, 20] := by
  refine ⟨resolve_eq_spec, ?_, by decide, by decide⟩
  intro sched wd bS bE hlt
  unfold resolveWorkingHours
  cases sched with
  | none => exact range_business_ne_nil bS bE hlt
  | some m =>
    dsimp only
    exact fallback_ne_nil _ bS bE hlt

/-- Witness for C7: with no schedule at all and business hours 9-21 the
resolved working hours are non-empty. -/
theorem c7_witness : resolveWorkingHours none 3 9 21 ≠ [] :=
  c7_resolve_working_hours.2.1 none 3 9 21 (by decide)

/-- The per-day loop body produces, on success, exactly one entry per
iteration, the i-th being the per-day result for current_date + i. -/
theorem availGo_spec (bS bE : Nat) (s : Store) (rid : Nat) :
    ∀ (fuel cur : Nat) (l : List AvailabilityDay),
      availGo bS bE s rid fuel cur = .ok l →
        l.length = fuel ∧
        ∀ i (hi : i < l.length),
          get_availability_for_date bS bE s rid (cur + i) = .ok (l.get ⟨i, hi⟩) := by
  intro fuel
  induction fuel with
  | zero =>
    intro cur l hl
    cases hl
    refine ⟨rfl, ?_⟩
    intro i hi
    simp at hi
  | succ k ih =>
    intro cur l hl
    unfold availGo at hl
    cases hday : get_availability_for_date bS bE s rid cur with
    | error e => rw [hday] at hl; cases hl
    | ok day =>
      rw [hday] at hl
      cases hrest : availGo bS bE s rid k (cur + 1) with
      | error e => rw [hrest] at hl; cases hl
      | ok rest =>
        rw [hrest] at hl
        cases hl
        obtain ⟨hlen, hidx⟩ := ih (cur + 1) rest hrest
        constructor
        · simp only [List.length_cons, hlen]
        · intro i hi
          cases i with
          | zero => simpa using hday
          | succ j =>
            have hj : j < rest.length := by
              simp only [List.length_cons] at hi
              omega
            have hg := hidx j hj
            have harg : cur + (j + 1) = (cur + 1) + j := by omega
            rw [harg]
            simpa using hg

/-- C8: on success with startDate <= endDate, get_availability_range returns
one AvailabilityDay per calendar day from startDate to endDate inclusive, in
ascending date order, the i-th entry being exactly the
get_availability_for_date result for startDate + i (so equal dates give one
day and a six-day span gives seven). -/
theorem c8_generate_range :
    ∀ (business_start business_end : Nat) (s : Store)
      (resource_id start_date end_date : Nat) (res : AvailabilityRange),
      start_date ≤ end_date →
      get_availability_range business_start business_end s resource_id
        start_date end_date = .ok res →
      res.availability.length = end_date + 1 - start_date ∧
      ∀ i (hi : i < res.availability.length),
        get_availability_for_date business_start business_end s resource_id
          (start_date + i) = .ok (res.availability.get ⟨i, hi⟩) := by
  intro bS bE s rid sd ed res _hle h
  unfold get_availability_range availLoop at h
  cases hl : availGo bS bE s rid (ed + 1 - sd) sd with
  | error e => rw [hl] at h; cases h
  | ok results =>
    rw [hl] at h
    cases h
    exact availGo_spec bS bE s rid (ed + 1 - sd) sd results hl

/-- Store for the C8 witness. -/
def c8Store : Store :=
  { resources := [{ id := 1, availability_schedule := none }],
    reservations := [], next_id := 1 }

/-- The availability answer for the seven days 0..6 on c8Store with business
hours 9-10, extracted from the successful call. -/
def c8res : AvailabilityRange :=
  (get_availability_range 9 10 c8Store 1 0 6).toOption.getD default

/-- Witness for C8: a six-day span (end = start + 6) yields exactly seven
AvailabilityDay entries. -/
theorem c8_witness : c8res.availability.length = 6 + 1 - 0 :=
  (c8_generate_range 9 10 c8Store 1 0 6 c8res (by decide) (by rfl)).1

/-- Filler reservation for C9: active, on resource 1, but on day 1, so the
day filter discards it. -/
def c9Other : Reservation :=
  { id := 1, resource_id := 1, customer_name := "o", customer_email := "o@example.com",
    customer_phone := none, start_time := 2040, end_time := 2070,
    status := ReservationStatus.confirmed }

/-- The 1001st reservation for C9: active on resource 1, on the target day 0,
covering 10:00-11:00. -/
def c9Tgt : Reservation :=
  { id := 2000, resource_id := 1, customer_name := "t", customer_email := "t@example.com",
    customer_phone := none, start_time := 600, end_time := 660,
    status := ReservationStatus.confirmed }

/-- Store for C9: 1000 filler rows ahead of the one reservation that actually
occupies the queried day. -/
def c9Store : Store :=
  { resources := [{ id := 1, availability_schedule := none }],
    reservations := List.replicate 1000 c9Other ++ [c9Tgt], next_id := 2001 }

set_option maxRecDepth 200000

/-- C9: the slot marker consults only the single fetch with skip=0
limit=1000: in c9Store resource 1 has 1001 stored reservations, the 1001st
(c9Tgt) is active on day 0 and overlaps the 10:00-10:30 slot, yet
get_availability_for_date reports that slot as available. -/
theorem c9_limit_misses_reservation :
    1000 < (c9Store.reservations.filter (fun r => decide (r.resource_id = 1))).length ∧
    c9Tgt ∈ c9Store.reservations ∧
    c9Tgt.status ≠ ReservationStatus.cancelled ∧
    dateOf c9Tgt.start_time = 0 ∧
    slotOverlapCond (combineDT 0 10 0) (combineDT 0 10 0 + 30) c9Tgt = true ∧
    { time := 600, hour := 10, minute := 0, available := true } ∈
      slotsOf (get_availability_for_date 9 21 c9Store 1 0) := by
  refine ⟨by decide, ?_, by decide, by decide, by decide, by decide⟩
  show c9Tgt ∈ List.replicate 1000 c9Other ++ [c9Tgt]
  exact List.mem_append_right _ (List.mem_singleton_self _)

end ReservationDemo

namespace ReservationDemo

/-- A passing conflict check means no stored active reservation of the
resource other than the excluded one overlaps the candidate interval. -/
theorem check_conflict_ok (s : Store) (rid st en : Nat) (excl : Option Nat)
    (h : check_reservation_conflict s rid st en excl = .ok ()) :
    ∀ r ∈ s.reservations, r.resource_id = rid →
      r.status ≠ ReservationStatus.cancelled →
      (∀ x, excl = some x → r.id ≠ x) →
      ¬ (r.start_time < en ∧ r.end_time > st) := by
  intro r hr hres hst hexcl hov
  unfold check_reservation_conflict at h
  dsimp only at h
  split at h
  · next hemp =>
    have hnil : ReservationRepository.get_conflicting_reservations s rid st en excl = [] := by
      rwa [List.isEmpty_iff] at hemp
    have hmem : r ∈ ReservationRepository.get_conflicting_reservations s rid st en excl := by
      unfold ReservationRepository.get_conflicting_reservations conflictTimeCond
      cases hx : excl with
      | none =>
        simp only [List.mem_filter, Bool.and_eq_true, decide_eq_true_eq]
        exact ⟨hr, ⟨⟨hres, hst⟩, hov.1, hov.2⟩⟩
      | some x =>
        simp only [List.mem_filter, Bool.and_eq_true, decide_eq_true_eq]
        exact ⟨⟨hr, ⟨⟨hres, hst⟩, hov.1, hov.2⟩⟩, hexcl x hx⟩
    rw [hnil] at hmem
    simp at hmem
  · next => cases h

/-- create_reservation preserves the per-resource non-overlap invariant: the
new row was checked against every stored active row of its resource. -/
theorem create_preserves (now : Nat) (s : Store) (d : ReservationCreate)
    (s2 : Store) (r : Reservation)
    (hinv : activeOverlapFree s.reservations)
    (h : create_reservation now s d = .ok (s2, r)) :
    activeOverlapFree s2.reservations := by
  unfold create_reservation at h
  cases hget : ResourceRepository.get s d.resource_id with
  | none => rw [hget] at h; cases h
  | some res =>
    rw [hget] at h
    cases hval : validate_reservation_time now d.start_time d.end_time with
    | error e => rw [hval] at h; cases h
    | ok u =>
      rw [hval] at h
      cases hchk : check_reservation_conflict s d.resource_id d.start_time d.end_time none with
      | error e => rw [hchk] at h; cases h
      | ok u2 =>
        rw [hchk] at h
        cases h
        unfold activeOverlapFree at hinv ⊢
        rw [List.pairwise_append]
        refine ⟨hinv, List.pairwise_singleton _ _, ?_⟩
        intro a ha b hb
        simp only [List.mem_singleton] at hb
        subst hb
        intro hres2 hact1 hact2 hov
        cases u2
        have hnc := check_conflict_ok s d.resource_id d.start_time d.end_time none hchk
          a ha (by simpa using hres2) hact1 (fun x hx => nomatch hx)
        exact hnc ⟨by simpa using hov.1, by simpa using hov.2⟩

/-- delete_reservation preserves the invariant: the surviving rows are a
sublist of the old ones. -/
theorem delete_preserves (s : Store) (rid : Nat) (s2 : Store)
    (hinv : activeOverlapFree s.reservations)
    (h : delete_reservation s rid = .ok s2) :
    activeOverlapFree s2.reservations := by
  unfold delete_reservation ReservationRepository.delete at h
  cases hget : ReservationRepository.get s rid with
  | none => rw [hget] at h; cases h
  | some obj =>
    rw [hget] at h
    cases h
    exact hinv.sublist (List.eraseP_sublist _)

/-- A passing time pre-check with start_time or end_time among the changed
fields implies the conflict check on the merged tuple passed. -/
theorem check_update_times_ok (now : Nat) (s : Store) (rid : Nat)
    (d : ReservationUpdate) (existing : Reservation)
    (hch : (d.start_time.isSome || d.end_time.isSome) = true)
    (h : check_update_times now s rid d existing = .ok ()) :
    check_reservation_conflict s (d.resource_id.getD existing.resource_id)
      (d.start_time.getD existing.start_time) (d.end_time.getD existing.end_time)
      (some rid) = .ok () := by
  unfold check_update_times at h
  rw [if_pos hch] at h
  cases hval : validate_reservation_time now (d.start_time.getD existing.start_time)
      (d.end_time.getD existing.end_time) with
  | error e => rw [hval] at h; cases h
  | ok u => rw [hval] at h; exact h

/-- update_reservation preserves the invariant whenever the update changes
start_time or end_time: the merged interval is then re-checked against all
other reservations (ids assumed pairwise distinct, as for a primary key). -/
theorem update_preserves (now : Nat) (s : Store) (rid : Nat)
    (d : ReservationUpdate) (s2 : Store) (r : Reservation)
    (hids : s.reservations.Pairwise (fun a b => a.id ≠ b.id))
    (hinv : activeOverlapFree s.reservations)
    (hch : d.start_time.isSome ∨ d.end_time.isSome)
    (h : update_reservation now s rid d = .ok (s2, r)) :
    activeOverlapFree s2.reservations := by
  unfold update_reservation at h
  cases hget : ReservationRepository.get s rid with
  | none => rw [hget] at h; cases h
  | some existing =>
    rw [hget] at h
    dsimp only at h
    cases hcr : check_update_resource s d with
    | error e => rw [hcr] at h; cases h
    | ok u1 =>
      rw [hcr] at h
      dsimp only at h
      cases hct : check_update_times now s rid d existing with
      | error e => rw [hct] at h; cases h
      | ok u2 =>
        rw [hct] at h
        dsimp only at h
        cases hupd : ReservationRepository.update s rid d with
        | none => rw [hupd] at h; cases h
        | some pair =>
          rw [hupd] at h
          obtain ⟨s3, merged⟩ := pair
          cases h
          unfold ReservationRepository.update at hupd
          rw [hget] at hupd
          dsimp only at hupd
          cases hupd
          cases u2
          have hcond : (d.start_time.isSome || d.end_time.isSome) = true := by
            rcases hch with h1 | h1 <;> simp [h1]
          have hchk := check_update_times_ok now s rid d existing hcond hct
          have hnc := check_conflict_ok s (d.resource_id.getD existing.resource_id)
            (d.start_time.getD existing.start_time) (d.end_time.getD existing.end_time)
            (some rid) hchk
          unfold activeOverlapFree at hinv ⊢
          rw [List.pairwise_map]
          refine List.Pairwise.imp_of_mem ?_ (hids.and hinv)
          intro a b ha hb hab
          obtain ⟨hne, hP⟩ := hab
          by_cases haid : a.id = rid
          · have hbid : ¬ b.id = rid := fun hb2 => hne (by rw [haid, hb2])
            rw [if_pos haid, if_neg hbid]
            intro hres2 hact1 hact2 hov
            have hbres : b.resource_id = d.resource_id.getD existing.resource_id := by
              rw [← hres2]
              simp [mergeUpdate]
            have := hnc b hb hbres hact2 (fun x hx => by cases hx; exact hbid)
            apply this
            unfold reservationsOverlap at hov
            simp only [mergeUpdate] at hov
            exact ⟨by omega, by omega⟩
          · by_cases hbid : b.id = rid
            · rw [if_neg haid, if_pos hbid]
              intro hres2 hact1 hact2 hov
              have hares : a.resource_id = d.resource_id.getD existing.resource_id := by
                rw [hres2]
                simp [mergeUpdate]
              have := hnc a ha hares hact1 (fun x hx => by cases hx; exact haid)
              apply this
              unfold reservationsOverlap at hov
              simp only [mergeUpdate] at hov
              exact ⟨by omega, by omega⟩
            · rw [if_neg haid, if_neg hbid]
              exact hP

end ReservationDemo

namespace ReservationDemo

/-- C2 as amended: on a store with pairwise-distinct reservation ids whose
active reservations are per-resource pairwise non-overlapping, the invariant
is preserved by every successful create_reservation, by every successful
delete_reservation, and by every successful update_reservation whose changed
fields include start_time or end_time; an update whose changes include
resource_id but neither time field skips the conflict re-check and can
violate the invariant (see the counterexample). -/
theorem c2_write_ops_preserve_invariant (now : Nat) (s : Store)
    (hids : s.reservations.Pairwise (fun a b => a.id ≠ b.id))
    (hinv : activeOverlapFree s.reservations) :
    (∀ d s2 r, create_reservation now s d = .ok (s2, r) →
      activeOverlapFree s2.reservations) ∧
    (∀ rid s2, delete_reservation s rid = .ok s2 →
      activeOverlapFree s2.reservations) ∧
    (∀ rid d s2 r, (d.start_time.isSome ∨ d.end_time.isSome) →
      update_reservation now s rid d = .ok (s2, r) →
      activeOverlapFree s2.reservations) :=
  ⟨fun d s2 r h => create_preserves now s d s2 r hinv h,
   fun rid s2 h => delete_preserves s rid s2 hinv h,
   fun rid d s2 r hch h => update_preserves now s rid d s2 r hids hinv hch h⟩

/-- Store for the C2 counterexample: two resources, each with one confirmed
reservation over the same minutes 600-660 of day 0. -/
def c2Store : Store :=
  { resources := [{ id := 1, availability_schedule := none },
                  { id := 2, availability_schedule := none }],
    reservations := [{ id := 1, resource_id := 1, customer_name := "a",
                       customer_email := "a@example.com", customer_phone := none,
                       start_time := 600, end_time := 660,
                       status := ReservationStatus.confirmed },
                     { id := 2, resource_id := 2, customer_name := "b",
                       customer_email := "b@example.com", customer_phone := none,
                       start_time := 600, end_time := 660,
                       status := ReservationStatus.confirmed }],
    next_id := 3 }

/-- C2 counterexample: c2Store satisfies the invariant, yet moving
reservation 2 onto resource 1 — an update whose only changed field is
resource_id — succeeds without any conflict check and leaves resource 1 with
two overlapping active reservations. -/
theorem c2_counterexample_resource_move :
    activeOverlapFree c2Store.reservations ∧
    ∃ s2 r, update_reservation 0 c2Store 2 { resource_id := some 1 } = .ok (s2, r) ∧
      ¬ activeOverlapFree s2.reservations := by
  refine ⟨by decide, ?_⟩
  refine ⟨_, _, rfl, ?_⟩
  decide

/-- Store for the C2 witness: one resource, no reservations yet. -/
def c2wStore : Store :=
  { resources := [{ id := 1, availability_schedule := none }],
    reservations := [], next_id := 1 }

/-- Creation payload for the C2 witness. -/
def c2wData : ReservationCreate :=
  { resource_id := 1, customer_name := "w", customer_email := "w@example.com",
    customer_phone := none, start_time := 600, end_time := 660,
    status := ReservationStatus.pending }

/-- The store produced by the witness creation. -/
def c2wStore2 : Store :=
  ((create_reservation 10 c2wStore c2wData).toOption.getD default).1

/-- The reservation row produced by the witness creation. -/
def c2wRes : Reservation :=
  ((create_reservation 10 c2wStore c2wData).toOption.getD default).2

/-- Witness for C2: the store left by a successful creation still satisfies
the invariant. -/
theorem c2_witness : activeOverlapFree c2wStore2.reservations :=
  (c2_write_ops_preserve_invariant 10 c2wStore (by decide) (by decide)).1
    c2wData c2wStore2 c2wRes (by rfl)

end ReservationDemo

